import Mathlib

/-!
# PathGreen-AI streaming core: a shallow embedding

This file embeds the streaming fusion-and-emission-inference pipeline of the
PathGreen-AI backend (`backend/transforms.py`) in Lean 4 and proves the
specification claims about it.

Design of the embedding:
* Python floats are modelled as rationals (`ℚ`); Python ints as `ℤ`.
* The pure helper functions (`calculate_speed_penalty`, `calculate_co2_emission`,
  `determine_alert`) are translated branch for branch.
* The Pathway dataflow operators used by the pipeline are embedded by their
  documented semantics on ordered lists of records:
  - `asof_join(..., how=LEFT, direction=BACKWARD)` matches each left row to the
    latest right row of the same vehicle with timestamp ≤ the left timestamp;
  - `windowby(timestamp, window=tumbling(duration))` with no `instance=`
    argument groups rows into epoch-aligned buckets by timestamp alone;
  - `common_behavior(cutoff, keep_results=True)` is modelled from the spec
    (see `bucketClosedB` below).
* Python's `f"{x:.1f}"` formatting is modelled by `format1f`.
-/

namespace PathGreen

/-! ## Emission constants (transforms.py lines 17-35) -/

def BASE_EMISSION_FACTOR : ℚ := 650
def LOAD_PENALTY_PER_1000KG : ℚ := 25
def OPTIMAL_SPEED_MIN : ℚ := 40
def OPTIMAL_SPEED_MAX : ℚ := 70
def SPEED_PENALTY_FACTOR : ℚ := 5 / 2
def IDLE_EMISSION_RATE : ℚ := 17 / 2
def IDLE_WARNING_SECONDS : ℤ := 60
def IDLE_CRITICAL_SECONDS : ℤ := 120
def EMISSION_SPIKE_THRESHOLD : ℚ := 35
def DEFAULT_DISTANCE_KM : ℚ := 1 / 10

/-- Python's `f"{q:.1f}"` for a rational `q`: round to the nearest tenth and
print one digit after the decimal point.  (Python rounds ties to even; the
difference is irrelevant here because every value this file formats is an
exact multiple of one tenth.) -/
def format1f (q : ℚ) : String :=
  let t : ℤ := Int.fdiv (q.num * 20 + (q.den : ℤ)) (2 * (q.den : ℤ))
  (if t < 0 then "-" else "") ++ toString (t.natAbs / 10) ++ "." ++ toString (t.natAbs % 10)

/-- `calculate_speed_penalty` (transforms.py lines 42-57). -/
def calculate_speed_penalty (speed_kmh : ℚ) : ℚ :=
  if OPTIMAL_SPEED_MIN ≤ speed_kmh ∧ speed_kmh ≤ OPTIMAL_SPEED_MAX then 1
  else if speed_kmh < OPTIMAL_SPEED_MIN then
    1 + ((OPTIMAL_SPEED_MIN - speed_kmh) / OPTIMAL_SPEED_MIN) * SPEED_PENALTY_FACTOR
  else
    1 + ((speed_kmh - OPTIMAL_SPEED_MAX) / 50) * SPEED_PENALTY_FACTOR

/-- `calculate_co2_emission` (transforms.py lines 60-84); the Python default
for `distance_km` is `0.1` (= `DEFAULT_DISTANCE_KM`), passed explicitly here.
Returns `(co2_grams, co2_rate_g_per_km)`. -/
def calculate_co2_emission (speed_kmh load_kg : ℚ) (idle_seconds : ℤ)
    (distance_km : ℚ) : ℚ × ℚ :=
  if speed_kmh < 1 then
    (IDLE_EMISSION_RATE * ((min idle_seconds 10 : ℤ) : ℚ), 0)
  else
    let load_penalty := (load_kg / 1000) * LOAD_PENALTY_PER_1000KG
    let speed_multiplier := calculate_speed_penalty speed_kmh
    let co2_rate := (BASE_EMISSION_FACTOR + load_penalty) * speed_multiplier
    (co2_rate * distance_km, co2_rate)

/-- `determine_alert` (transforms.py lines 87-125).
Returns `(alert_type, severity, message)`. -/
def determine_alert (speed_kmh : ℚ) (idle_seconds : ℤ) (co2_rate : ℚ)
    (vehicle_id : String) : Option String × String × Option String :=
  if IDLE_CRITICAL_SECONDS ≤ idle_seconds then
    (some "HIGH_IDLE", "CRITICAL",
      some (vehicle_id ++ " has been idling for " ++ toString idle_seconds ++
        "s. " ++ "BS-VI Section 4.2.1 limits metro zone idling to 90s. " ++
        "Estimated waste: " ++
        format1f ((idle_seconds : ℚ) * IDLE_EMISSION_RATE) ++ "g CO₂"))
  else if IDLE_WARNING_SECONDS ≤ idle_seconds then
    (some "HIGH_IDLE", "WARNING",
      some (vehicle_id ++ " idling for " ++ toString idle_seconds ++
        "s. Approaching BS-VI idle limit."))
  else if EMISSION_SPIKE_THRESHOLD < co2_rate ∧ 5 < speed_kmh then
    (some "EMISSION_SPIKE", "WARNING",
      some (vehicle_id ++ " emission rate " ++ format1f co2_rate ++
        "g/km exceeds optimal threshold. " ++ "Consider reducing speed or load."))
  else
    (none, "INFO", none)

/-! ## Data model (schema.py / spec §3) -/

/-- A raw position (GPS) event. -/
structure PositionEvent where
  vehicle_id : String
  timestamp : ℤ
  latitude : ℚ
  longitude : ℚ
  speed_kmh : ℚ
  heading : ℚ

/-- A raw telemetry event. -/
structure TelemetryEvent where
  vehicle_id : String
  timestamp : ℤ
  fuel_level_pct : ℚ
  engine_temp_c : ℚ
  load_kg : ℚ
  idle_seconds : ℤ

/-- The fused vehicle state: all position fields plus the telemetry fields. -/
structure VehicleState where
  vehicle_id : String
  timestamp : ℤ
  latitude : ℚ
  longitude : ℚ
  speed_kmh : ℚ
  heading : ℚ
  fuel_level_pct : ℚ
  engine_temp_c : ℚ
  load_kg : ℚ
  idle_seconds : ℤ

/-- One emission record per vehicle state (output of `compute_emissions`).
The `idle_seconds` column is carried through here because
`compute_rolling_efficiency` reduces over `pw.this.idle_seconds` (the
source's `compute_emissions` select list actually omits it — that function is
never invoked in the repository, so the mismatch never fires). -/
structure EmissionRecord where
  vehicle_id : String
  timestamp : ℤ
  latitude : ℚ
  longitude : ℚ
  speed_kmh : ℚ
  idle_seconds : ℤ
  co2_grams : ℚ
  co2_rate_g_per_km : ℚ
  alert_type : Option String
  alert_severity : String

/-- One summary per tumbling window (output of `compute_rolling_efficiency`). -/
structure WindowSummary where
  vehicle_id : String
  window_start : ℤ
  window_end : ℤ
  avg_co2_rate : ℚ
  total_co2_grams : ℚ
  avg_speed : ℚ
  max_idle : ℤ
  reading_count : ℕ

/-! ## Stream fusion (transforms.py lines 154-182)

`join_gps_and_telemetry` calls Pathway's
`asof_join(..., how=pw.JoinMode.LEFT, direction=pw.temporal.Direction.BACKWARD)`
on `vehicle_id` equality, matching each GPS row to the latest telemetry row of
the same vehicle with `timestamp ≤` the GPS row's timestamp, and then
`coalesce`s the telemetry columns with the neutral defaults
`fuel_level_pct=100.0`, `engine_temp_c=85.0`, `load_kg=0.0`, `idle_seconds=0`. -/

/-- The backward asof-join match: among telemetry events of the same vehicle
with timestamp ≤ the position's timestamp, pick one with maximal timestamp
(`none` when no such event exists). -/
def asofMatch (g : PositionEvent) : List TelemetryEvent → Option TelemetryEvent
  | [] => none
  | t :: ts =>
    let rest := asofMatch g ts
    if t.vehicle_id = g.vehicle_id ∧ t.timestamp ≤ g.timestamp then
      match rest with
      | none => some t
      | some b => if b.timestamp < t.timestamp then some t else some b
    else rest

/-- Assemble the fused row from a GPS row and its (optional) telemetry match,
with the `pw.coalesce` defaults of the source. -/
def fuse (g : PositionEvent) : Option TelemetryEvent → VehicleState
  | some t =>
    { vehicle_id := g.vehicle_id, timestamp := g.timestamp, latitude := g.latitude,
      longitude := g.longitude, speed_kmh := g.speed_kmh, heading := g.heading,
      fuel_level_pct := t.fuel_level_pct, engine_temp_c := t.engine_temp_c,
      load_kg := t.load_kg, idle_seconds := t.idle_seconds }
  | none =>
    { vehicle_id := g.vehicle_id, timestamp := g.timestamp, latitude := g.latitude,
      longitude := g.longitude, speed_kmh := g.speed_kmh, heading := g.heading,
      fuel_level_pct := 100, engine_temp_c := 85, load_kg := 0, idle_seconds := 0 }

/-- `join_gps_and_telemetry` (transforms.py lines 154-182) on ordered streams. -/
def join_gps_and_telemetry (gps : List PositionEvent) (tel : List TelemetryEvent) :
    List VehicleState :=
  gps.map (fun g => fuse g (asofMatch g tel))

/-- Projection of a fused state back to its position fields. -/
def toPositionEvent (v : VehicleState) : PositionEvent :=
  { vehicle_id := v.vehicle_id, timestamp := v.timestamp, latitude := v.latitude,
    longitude := v.longitude, speed_kmh := v.speed_kmh, heading := v.heading }

/-! ## Emission transform (transforms.py lines 185-240)

`compute_emissions` does NOT call `calculate_co2_emission` / `determine_alert`:
it re-implements a simplified variant inline in Pathway expressions:
`co2_grams = IDLE_EMISSION_RATE * clip(idle_seconds, 0, 10)` when stationary,
else `(BASE + load/1000*LOAD_PENALTY) * 0.1` with NO speed multiplier;
`co2_rate` likewise without the multiplier; the alert expressions implement
only the two idle branches (no EMISSION_SPIKE branch, no message). -/

/-- The per-record body of `compute_emissions` (transforms.py lines 202-238).
`clip(0, 10)` is Pathway's clamp of `idle_seconds` into `[0, 10]`. -/
def compute_emissions_record (v : VehicleState) : EmissionRecord :=
  { vehicle_id := v.vehicle_id, timestamp := v.timestamp, latitude := v.latitude,
    longitude := v.longitude, speed_kmh := v.speed_kmh, idle_seconds := v.idle_seconds,
    co2_grams :=
      if v.speed_kmh < 1 then
        IDLE_EMISSION_RATE * ((max 0 (min v.idle_seconds 10) : ℤ) : ℚ)
      else
        (BASE_EMISSION_FACTOR + v.load_kg / 1000 * LOAD_PENALTY_PER_1000KG) * (1 / 10),
    co2_rate_g_per_km :=
      if v.speed_kmh < 1 then 0
      else BASE_EMISSION_FACTOR + v.load_kg / 1000 * LOAD_PENALTY_PER_1000KG,
    alert_type :=
      if IDLE_CRITICAL_SECONDS ≤ v.idle_seconds then some "HIGH_IDLE"
      else if IDLE_WARNING_SECONDS ≤ v.idle_seconds then some "HIGH_IDLE"
      else none,
    alert_severity :=
      if IDLE_CRITICAL_SECONDS ≤ v.idle_seconds then "CRITICAL"
      else if IDLE_WARNING_SECONDS ≤ v.idle_seconds then "WARNING"
      else "INFO" }

/-- `compute_emissions` (transforms.py lines 185-240) on an ordered stream. -/
def compute_emissions (vs : List VehicleState) : List EmissionRecord :=
  vs.map compute_emissions_record

/-! ## Rolling window aggregation (transforms.py lines 243-268)

`compute_rolling_efficiency` calls
`emissions.windowby(emissions.timestamp, window=pw.temporal.tumbling(duration),
behavior=pw.temporal.common_behavior(cutoff=30s, keep_results=True))`.
Crucially the call passes NO `instance=` argument, so rows are grouped by the
epoch-aligned time bucket alone, across all vehicles.  The reducers are
`any(vehicle_id)`, `min(timestamp)`, `max(timestamp)`, `avg(co2_rate_g_per_km)`,
`sum(co2_grams)`, `avg(speed_kmh)`, `max(idle_seconds)`, `count()`. -/

/-- The epoch-aligned tumbling-bucket key of a timestamp: record with
timestamp `t` falls in bucket `[k*d, (k+1)*d)` where `k = ⌊t/d⌋`. -/
def bucketKey (d t : ℤ) : ℤ := Int.fdiv t d

/-- The distinct bucket keys of a stream, in order of first appearance. -/
def bucketKeys (d : ℤ) (recs : List EmissionRecord) : List ℤ :=
  (recs.map (fun r => bucketKey d r.timestamp)).dedup

/-- The records of a stream falling in bucket `k`. -/
def groupFor (d k : ℤ) (recs : List EmissionRecord) : List EmissionRecord :=
  recs.filter (fun r => bucketKey d r.timestamp == k)

/-- The reduce step of `compute_rolling_efficiency` on one non-empty bucket
`r :: rs` (transforms.py lines 258-267): `pw.reducers.any` is modelled as the
first contributing record. -/
def summarize (r : EmissionRecord) (rs : List EmissionRecord) : WindowSummary :=
  { vehicle_id := r.vehicle_id,
    window_start := rs.foldl (fun a x => min a x.timestamp) r.timestamp,
    window_end := rs.foldl (fun a x => max a x.timestamp) r.timestamp,
    avg_co2_rate := ((r :: rs).map (fun x => x.co2_rate_g_per_km)).sum / ((rs.length + 1 : ℕ) : ℚ),
    total_co2_grams := ((r :: rs).map (fun x => x.co2_grams)).sum,
    avg_speed := ((r :: rs).map (fun x => x.speed_kmh)).sum / ((rs.length + 1 : ℕ) : ℚ),
    max_idle := rs.foldl (fun a x => max a x.idle_seconds) r.idle_seconds,
    reading_count := rs.length + 1 }

/-- The windowby-and-reduce of `compute_rolling_efficiency` (transforms.py
lines 251-267), before late-data behavior: one summary per non-empty
epoch-aligned time bucket, across all vehicles (no `instance=` grouping). -/
def compute_rolling_efficiency (d : ℤ) (recs : List EmissionRecord) :
    List WindowSummary :=
  (bucketKeys d recs).filterMap (fun k =>
    match groupFor d k recs with
    | [] => none
    | r :: rs => some (summarize r rs))

/-! ### Late-data behavior

Modelled from the spec: the implementation of
`pw.temporal.common_behavior(cutoff=timedelta(seconds=30), keep_results=True)`
is Pathway library code, not part of this repository; only its invocation is.
Per the spec (§4.5, §5, §8), the engine's clock is the event-time watermark
(the maximum timestamp seen so far); a bucket `[T, T+d)` closes once the
watermark reaches `T + d + cutoff`; a record arriving for a closed bucket is
discarded (never an error); all other records are folded into their bucket;
a bucket's summary is finalized only at closure (`keep_results=True` keeps
closed summaries in the output). -/

/-- Watermark update: raise the watermark to `t` if `t` is larger. -/
def pushTime (w : Option ℤ) (t : ℤ) : Option ℤ :=
  some (match w with | none => t | some w0 => max w0 t)

/-- Whether the bucket of timestamp `t` is closed at watermark `w`:
the watermark has reached the bucket's end plus the lateness cutoff. -/
def bucketClosedB (d c : ℤ) (w : Option ℤ) (t : ℤ) : Bool :=
  match w with
  | none => false
  | some w0 => decide ((bucketKey d t + 1) * d + c ≤ w0)

/-- Process the stream in arrival order, maintaining the watermark `w`:
a record arriving for an already-closed bucket is discarded, all others kept.
Every record (kept or dropped) advances the watermark. -/
def acceptedAux (d c : ℤ) (w : Option ℤ) : List EmissionRecord → List EmissionRecord
  | [] => []
  | r :: rs =>
    if bucketClosedB d c w r.timestamp then
      acceptedAux d c (pushTime w r.timestamp) rs
    else
      r :: acceptedAux d c (pushTime w r.timestamp) rs

/-- The records of a stream that are folded into their buckets (not late). -/
def accepted (d c : ℤ) (recs : List EmissionRecord) : List EmissionRecord :=
  acceptedAux d c none recs

/-- The event-time watermark after a stream prefix. -/
def watermarkOf (recs : List EmissionRecord) : Option ℤ :=
  recs.foldl (fun w r => pushTime w r.timestamp) none

/-- `compute_rolling_efficiency` with its `common_behavior(cutoff,
keep_results=True)` late-data policy: late records are discarded before the
windowed reduction. -/
def compute_rolling_efficiency_behaved (d c : ℤ) (recs : List EmissionRecord) :
    List WindowSummary :=
  compute_rolling_efficiency d (accepted d c recs)

/-! ## Helper lemmas -/

lemma str_assoc (a b c : String) : a ++ b ++ c = a ++ (b ++ c) := by
  cases a with | mk la =>
  cases b with | mk lb =>
  cases c with | mk lc =>
  show String.mk ((la ++ lb) ++ lc) = String.mk (la ++ (lb ++ lc))
  rw [List.append_assoc]

lemma speed_penalty_in_band {s : ℚ} (h1 : OPTIMAL_SPEED_MIN ≤ s)
    (h2 : s ≤ OPTIMAL_SPEED_MAX) : calculate_speed_penalty s = 1 := by
  simp [calculate_speed_penalty, h1, h2]

/-! ## Claims about the pure emission model and alert classifier -/

/-- C7: the speed multiplier equals exactly 1 on the closed band
`[40, 70]` (both boundaries included), and outside the band it is the linear
penalty `1 + ((40 − s)/40) · 2.5` below and `1 + ((s − 70)/50) · 2.5` above,
each side with its own slope. -/
theorem calculate_speed_penalty_piecewise (s : ℚ) :
    (40 ≤ s ∧ s ≤ 70 → calculate_speed_penalty s = 1) ∧
    (s < 40 → calculate_speed_penalty s = 1 + ((40 - s) / 40) * (5 / 2)) ∧
    (70 < s → calculate_speed_penalty s = 1 + ((s - 70) / 50) * (5 / 2)) := by
  refine ⟨?_, ?_, ?_⟩
  · rintro ⟨ha, hb⟩
    unfold calculate_speed_penalty OPTIMAL_SPEED_MIN OPTIMAL_SPEED_MAX SPEED_PENALTY_FACTOR
    split_ifs with h1 h2 <;> first | rfl | exact absurd ⟨ha, hb⟩ h1
  · intro h
    unfold calculate_speed_penalty OPTIMAL_SPEED_MIN OPTIMAL_SPEED_MAX SPEED_PENALTY_FACTOR
    split_ifs with h1 <;> first | rfl | exact absurd h1.1 (not_le.mpr h)
  · intro h
    unfold calculate_speed_penalty OPTIMAL_SPEED_MIN OPTIMAL_SPEED_MAX SPEED_PENALTY_FACTOR
    split_ifs with h1 h2
    · exact absurd h1.2 (not_le.mpr h)
    · exact absurd h2 (by linarith)
    · rfl

/-- Witness for `calculate_speed_penalty_piecewise`: both band boundaries give
multiplier exactly 1, and a below-band speed gives the linear penalty. -/
theorem calculate_speed_penalty_piecewise_witness :
    calculate_speed_penalty 40 = 1 ∧ calculate_speed_penalty 70 = 1 ∧
    calculate_speed_penalty 10 = 1 + ((40 - 10) / 40) * (5 / 2) :=
  ⟨(calculate_speed_penalty_piecewise 40).1 (by norm_num),
   (calculate_speed_penalty_piecewise 70).1 (by norm_num),
   (calculate_speed_penalty_piecewise 10).2.1 (by norm_num)⟩

/-- C6: `calculate_co2_emission` at its default distance 0.1 km follows the
two-branch algorithm: stationary (`speed < 1`) readings emit
`8.5 · min(idle_seconds, 10)` grams at rate 0; moving readings have rate
`(650 + (load/1000)·25) · speed_multiplier` and grams `= rate · 0.1`;
at speed 45 with load 0 the rate is exactly 650. -/
theorem calculate_co2_emission_algorithm (s l : ℚ) (i : ℤ) :
    (s < 1 → calculate_co2_emission s l i DEFAULT_DISTANCE_KM =
      ((17 / 2) * ((min i 10 : ℤ) : ℚ), 0)) ∧
    (¬ s < 1 →
      (calculate_co2_emission s l i DEFAULT_DISTANCE_KM).2 =
        (650 + (l / 1000) * 25) * calculate_speed_penalty s ∧
      (calculate_co2_emission s l i DEFAULT_DISTANCE_KM).1 =
        (calculate_co2_emission s l i DEFAULT_DISTANCE_KM).2 * (1 / 10)) ∧
    (calculate_co2_emission 45 0 0 DEFAULT_DISTANCE_KM).2 = 650 := by
  refine ⟨fun h => ?_, fun h => ?_, ?_⟩
  · simp [calculate_co2_emission, IDLE_EMISSION_RATE, if_pos h]
  · constructor <;>
      simp [calculate_co2_emission, BASE_EMISSION_FACTOR, LOAD_PENALTY_PER_1000KG,
        DEFAULT_DISTANCE_KM, if_neg h]
  · have hband : calculate_speed_penalty 45 = 1 :=
      speed_penalty_in_band (by norm_num [OPTIMAL_SPEED_MIN]) (by norm_num [OPTIMAL_SPEED_MAX])
    norm_num [calculate_co2_emission, hband, BASE_EMISSION_FACTOR, LOAD_PENALTY_PER_1000KG]

/-- Witness for `calculate_co2_emission_algorithm`: the branch hypotheses hold
at the concrete inputs `(0.5, 0, 25)` and `(45, 0, 0)`. -/
theorem calculate_co2_emission_algorithm_witness :
    ((1 / 2 : ℚ) < 1 ∧ calculate_co2_emission (1 / 2) 0 25 DEFAULT_DISTANCE_KM =
      ((17 / 2) * ((min (25 : ℤ) 10 : ℤ) : ℚ), 0)) ∧
    (¬ (45 : ℚ) < 1 ∧
      (calculate_co2_emission 45 0 0 DEFAULT_DISTANCE_KM).1 =
        (calculate_co2_emission 45 0 0 DEFAULT_DISTANCE_KM).2 * (1 / 10)) :=
  ⟨⟨by norm_num, (calculate_co2_emission_algorithm (1 / 2) 0 25).1 (by norm_num)⟩,
   ⟨by norm_num, ((calculate_co2_emission_algorithm 45 0 0).2.1 (by norm_num)).2⟩⟩

/-- C3 is FALSE of the code (code bug): `calculate_co2_emission` does not
reject or clamp negative idle.  At `speed = 0`, `load = 0`,
`idle_seconds = -5` the stationary branch computes
`8.5 · min(-5, 10) = -42.5` grams — a negative emission.  (Negative load
likewise: at speed 45, `load = -30000` the rate is `650 - 750 = -100`.) -/
theorem calculate_co2_emission_negative_emissions :
    (calculate_co2_emission 0 0 (-5) DEFAULT_DISTANCE_KM).1 = -(85 / 2) ∧
    (calculate_co2_emission 0 0 (-5) DEFAULT_DISTANCE_KM).1 < 0 ∧
    (calculate_co2_emission 45 (-30000) 0 DEFAULT_DISTANCE_KM).2 < 0 := by
  have hband : calculate_speed_penalty 45 = 1 :=
    speed_penalty_in_band (by norm_num [OPTIMAL_SPEED_MIN]) (by norm_num [OPTIMAL_SPEED_MAX])
  have hmin : (min (-5 : ℤ) 10) = -5 := by decide
  refine ⟨?_, ?_, ?_⟩ <;>
    norm_num [calculate_co2_emission, IDLE_EMISSION_RATE, hmin, hband,
      BASE_EMISSION_FACTOR, LOAD_PENALTY_PER_1000KG, DEFAULT_DISTANCE_KM]

/-- C5: `determine_alert` implements the priority decision table, first match
winning: `idle ≥ 120` gives a CRITICAL `HIGH_IDLE` whose message contains the
formatted waste `idle · 8.5` grams regardless of rate or speed; else
`idle ≥ 60` gives a WARNING `HIGH_IDLE`; else `rate > 35 ∧ speed > 5` gives a
WARNING `EMISSION_SPIKE`; else no kind, INFO severity, no message;
and at `speed = 0`, `idle = 150` the CRITICAL message mentions `1275.0` g. -/
theorem determine_alert_decision_table (s : ℚ) (i : ℤ) (r : ℚ) (vid : String) :
    (120 ≤ i →
      ∃ m, determine_alert s i r vid = (some "HIGH_IDLE", "CRITICAL", some m) ∧
        ∃ p q, m = p ++ (format1f ((i : ℚ) * (17 / 2)) ++ q)) ∧
    (i < 120 → 60 ≤ i →
      ∃ m, determine_alert s i r vid = (some "HIGH_IDLE", "WARNING", some m)) ∧
    (i < 60 → 35 < r → 5 < s →
      ∃ m, determine_alert s i r vid = (some "EMISSION_SPIKE", "WARNING", some m)) ∧
    (i < 60 → ¬(35 < r ∧ 5 < s) →
      determine_alert s i r vid = (none, "INFO", none)) ∧
    (∃ m, determine_alert 0 150 0 "V" = (some "HIGH_IDLE", "CRITICAL", some m) ∧
      ∃ p q, m = p ++ ("1275.0" ++ q)) := by
  refine ⟨fun h => ?_, fun h1 h2 => ?_, fun h1 h2 h3 => ?_, fun h1 h2 => ?_, ?_⟩
  · unfold determine_alert
    rw [if_pos (show IDLE_CRITICAL_SECONDS ≤ i by simpa [IDLE_CRITICAL_SECONDS] using h)]
    refine ⟨_, rfl,
      vid ++ " has been idling for " ++ toString i ++ "s. " ++
        "BS-VI Section 4.2.1 limits metro zone idling to 90s. " ++ "Estimated waste: ",
      "g CO₂", ?_⟩
    simp only [IDLE_EMISSION_RATE, str_assoc]
  · unfold determine_alert
    rw [if_neg (show ¬ IDLE_CRITICAL_SECONDS ≤ i by simpa [IDLE_CRITICAL_SECONDS] using h1),
      if_pos (show IDLE_WARNING_SECONDS ≤ i by simpa [IDLE_WARNING_SECONDS] using h2)]
    exact ⟨_, rfl⟩
  · unfold determine_alert
    rw [if_neg (show ¬ IDLE_CRITICAL_SECONDS ≤ i by
          simp [IDLE_CRITICAL_SECONDS]; omega),
      if_neg (show ¬ IDLE_WARNING_SECONDS ≤ i by simpa [IDLE_WARNING_SECONDS] using h1),
      if_pos (show EMISSION_SPIKE_THRESHOLD < r ∧ 5 < s by
          exact ⟨by simpa [EMISSION_SPIKE_THRESHOLD] using h2, h3⟩)]
    exact ⟨_, rfl⟩
  · unfold determine_alert
    rw [if_neg (show ¬ IDLE_CRITICAL_SECONDS ≤ i by
          simp [IDLE_CRITICAL_SECONDS]; omega),
      if_neg (show ¬ IDLE_WARNING_SECONDS ≤ i by simpa [IDLE_WARNING_SECONDS] using h1),
      if_neg (show ¬ (EMISSION_SPIKE_THRESHOLD < r ∧ 5 < s) by
          simpa [EMISSION_SPIKE_THRESHOLD] using h2)]
  · unfold determine_alert
    rw [if_pos (show IDLE_CRITICAL_SECONDS ≤ (150 : ℤ) by decide)]
    have harg : (((150 : ℤ) : ℚ)) * IDLE_EMISSION_RATE = 1275 := by
      norm_num [IDLE_EMISSION_RATE]
    rw [harg, show format1f 1275 = "1275.0" from by decide]
    refine ⟨_, rfl,
      "V" ++ " has been idling for " ++ toString (150 : ℤ) ++ "s. " ++
        "BS-VI Section 4.2.1 limits metro zone idling to 90s. " ++ "Estimated waste: ",
      "g CO₂", ?_⟩
    simp only [str_assoc]

/-- Witness for `determine_alert_decision_table`: every branch hypothesis is
discharged at a concrete input. -/
theorem determine_alert_decision_table_witness :
    ((120 : ℤ) ≤ 150 ∧
      ∃ m, determine_alert 0 150 0 "V" = (some "HIGH_IDLE", "CRITICAL", some m) ∧
        ∃ p q, m = p ++ (format1f (((150 : ℤ) : ℚ) * (17 / 2)) ++ q)) ∧
    ((90 : ℤ) < 120 ∧ (60 : ℤ) ≤ 90 ∧
      ∃ m, determine_alert 0 90 0 "V" = (some "HIGH_IDLE", "WARNING", some m)) ∧
    ((0 : ℤ) < 60 ∧ (35 : ℚ) < 700 ∧ (5 : ℚ) < 45 ∧
      ∃ m, determine_alert 45 0 700 "V" = (some "EMISSION_SPIKE", "WARNING", some m)) ∧
    ((0 : ℤ) < 60 ∧ ¬((35 : ℚ) < 0 ∧ (5 : ℚ) < 0) ∧
      determine_alert 0 0 0 "V" = (none, "INFO", none)) :=
  ⟨⟨by decide, (determine_alert_decision_table 0 150 0 "V").1 (by decide)⟩,
   ⟨by decide, by decide, (determine_alert_decision_table 0 90 0 "V").2.1 (by decide) (by decide)⟩,
   ⟨by decide, by norm_num, by norm_num,
     (determine_alert_decision_table 45 0 700 "V").2.2.1 (by decide) (by norm_num) (by norm_num)⟩,
   ⟨by decide, by norm_num,
     (determine_alert_decision_table 0 0 0 "V").2.2.2.1 (by decide) (by norm_num)⟩⟩

/-- C10: `determine_alert` returns a message exactly when it returns an alert
kind; the severity is always one of INFO, WARNING, CRITICAL; an INFO reading
carries neither kind nor message; a WARNING or CRITICAL reading carries both. -/
theorem determine_alert_kind_message_severity (s : ℚ) (i : ℤ) (r : ℚ) (vid : String) :
    ((determine_alert s i r vid).1 = none ↔ (determine_alert s i r vid).2.2 = none) ∧
    ((determine_alert s i r vid).2.1 = "INFO" ∨ (determine_alert s i r vid).2.1 = "WARNING" ∨
      (determine_alert s i r vid).2.1 = "CRITICAL") ∧
    ((determine_alert s i r vid).2.1 = "INFO" →
      (determine_alert s i r vid).1 = none ∧ (determine_alert s i r vid).2.2 = none) ∧
    ((determine_alert s i r vid).2.1 = "WARNING" ∨ (determine_alert s i r vid).2.1 = "CRITICAL" →
      (determine_alert s i r vid).1 ≠ none ∧ (determine_alert s i r vid).2.2 ≠ none) := by
  unfold determine_alert
  split_ifs <;>
    exact ⟨by simp, by simp, fun hsev => by simp_all, fun hsev => by simp_all⟩

/-- Witness for `determine_alert_kind_message_severity`: the WARNING-or-CRITICAL
implication discharged at a concrete CRITICAL reading. -/
theorem determine_alert_kind_message_severity_witness :
    (determine_alert 0 150 0 "V").1 ≠ none ∧ (determine_alert 0 150 0 "V").2.2 ≠ none :=
  (determine_alert_kind_message_severity 0 150 0 "V").2.2.2
    (Or.inr (by decide))

/-! ## Claims about the emission transform -/

/-- The agreement claimed by the spec: the `EmissionRecord` that
`compute_emissions` produces for a vehicle state carries the same
`co2_grams`, `co2_rate_g_per_km`, alert kind and severity as invoking the
emission model (`calculate_co2_emission`, default distance 0.1 km) and the
alert classifier (`determine_alert`) on that state's fields. -/
def emissionsAgreeWithModel (v : VehicleState) : Prop :=
  (compute_emissions_record v).co2_grams =
    (calculate_co2_emission v.speed_kmh v.load_kg v.idle_seconds DEFAULT_DISTANCE_KM).1 ∧
  (compute_emissions_record v).co2_rate_g_per_km =
    (calculate_co2_emission v.speed_kmh v.load_kg v.idle_seconds DEFAULT_DISTANCE_KM).2 ∧
  (compute_emissions_record v).alert_type =
    (determine_alert v.speed_kmh v.idle_seconds
      (calculate_co2_emission v.speed_kmh v.load_kg v.idle_seconds DEFAULT_DISTANCE_KM).2
      v.vehicle_id).1 ∧
  (compute_emissions_record v).alert_severity =
    (determine_alert v.speed_kmh v.idle_seconds
      (calculate_co2_emission v.speed_kmh v.load_kg v.idle_seconds DEFAULT_DISTANCE_KM).2
      v.vehicle_id).2.1

/-- A fused state moving at 10 km/h with no load and no idle. -/
def vMoving : VehicleState :=
  { vehicle_id := "V1", timestamp := 0, latitude := 0, longitude := 0,
    speed_kmh := 10, heading := 0, fuel_level_pct := 100, engine_temp_c := 85,
    load_kg := 0, idle_seconds := 0 }

/-- C1 counterexample: at `vMoving` (speed 10, load 0, idle 0) the inline
transform returns rate 650 and no alert, while the model returns rate
`650 · 2.875 = 1868.75` (the inline expressions omit the speed multiplier)
and an `EMISSION_SPIKE` WARNING (the inline expressions omit that branch). -/
theorem compute_emissions_disagrees_with_model : ¬ emissionsAgreeWithModel vMoving := by
  intro hagree
  have hrate := hagree.2.1
  have hpen : calculate_speed_penalty 10 = 1 + ((40 - 10) / 40) * (5 / 2) :=
    (calculate_speed_penalty_piecewise 10).2.1 (by norm_num)
  norm_num [compute_emissions_record, calculate_co2_emission, vMoving, hpen,
    BASE_EMISSION_FACTOR, LOAD_PENALTY_PER_1000KG, DEFAULT_DISTANCE_KM] at hrate

/-- C1 amended: the transform agrees with the model on all four quantities for
the states where the two inline simplifications are invisible — a
non-negative idle together with either an effectively stationary reading
(`speed < 1`) or a reading in the optimal speed band with `idle ≥ 60` (so the
speed multiplier is 1 and an idle alert pre-empts the missing spike branch). -/
theorem compute_emissions_agrees_on_restriction (v : VehicleState)
    (hidle : 0 ≤ v.idle_seconds)
    (hcase : v.speed_kmh < 1 ∨
      (40 ≤ v.speed_kmh ∧ v.speed_kmh ≤ 70 ∧ 60 ≤ v.idle_seconds)) :
    emissionsAgreeWithModel v := by
  rcases hcase with hs | ⟨hs1, hs2, hi⟩
  · have hclip : (max 0 (min v.idle_seconds 10) : ℤ) = min v.idle_seconds 10 :=
      max_eq_right (le_min hidle (by norm_num))
    refine ⟨?_, ?_, ?_, ?_⟩
    · simp [compute_emissions_record, calculate_co2_emission, if_pos hs, hclip]
    · simp [compute_emissions_record, calculate_co2_emission, if_pos hs]
    · unfold compute_emissions_record determine_alert calculate_co2_emission
      rw [if_pos hs]
      split_ifs with h1 h2 h3 <;> first | rfl | (exfalso; revert h3)
      exact fun hc => absurd hc.1 (by norm_num [EMISSION_SPIKE_THRESHOLD])
    · unfold compute_emissions_record determine_alert calculate_co2_emission
      rw [if_pos hs]
      split_ifs with h1 h2 h3 <;> first | rfl | (exfalso; revert h3)
      exact fun hc => absurd hc.1 (by norm_num [EMISSION_SPIKE_THRESHOLD])
  · have hs0 : ¬ v.speed_kmh < 1 := by linarith
    have hpen : calculate_speed_penalty v.speed_kmh = 1 :=
      speed_penalty_in_band (by simpa [OPTIMAL_SPEED_MIN] using hs1)
        (by simpa [OPTIMAL_SPEED_MAX] using hs2)
    have hcrit : IDLE_WARNING_SECONDS ≤ v.idle_seconds := by
      simpa [IDLE_WARNING_SECONDS] using hi
    refine ⟨?_, ?_, ?_, ?_⟩
    · simp only [compute_emissions_record, calculate_co2_emission, if_neg hs0, hpen,
        DEFAULT_DISTANCE_KM]
      ring
    · simp only [compute_emissions_record, calculate_co2_emission, if_neg hs0, hpen]
      ring
    · unfold compute_emissions_record determine_alert
      split_ifs <;> rfl
    · unfold compute_emissions_record determine_alert
      split_ifs <;> rfl

/-- A fused state stationary with 150 s of idle. -/
def vIdling : VehicleState :=
  { vehicle_id := "V2", timestamp := 0, latitude := 0, longitude := 0,
    speed_kmh := 0, heading := 0, fuel_level_pct := 100, engine_temp_c := 85,
    load_kg := 1000, idle_seconds := 150 }

/-- Witness for `compute_emissions_agrees_on_restriction` at the stationary
idling state `vIdling`. -/
theorem compute_emissions_agrees_on_restriction_witness :
    (0 : ℤ) ≤ vIdling.idle_seconds ∧
    (vIdling.speed_kmh < 1 ∨
      (40 ≤ vIdling.speed_kmh ∧ vIdling.speed_kmh ≤ 70 ∧ 60 ≤ vIdling.idle_seconds)) ∧
    emissionsAgreeWithModel vIdling :=
  ⟨by decide, Or.inl (by norm_num [vIdling]),
   compute_emissions_agrees_on_restriction vIdling (by decide)
     (Or.inl (by norm_num [vIdling]))⟩

/-! ## Claims about stream fusion -/

lemma asofMatch_eq_none (g : PositionEvent) (tel : List TelemetryEvent)
    (h : asofMatch g tel = none) :
    ∀ t ∈ tel, t.vehicle_id = g.vehicle_id → ¬ t.timestamp ≤ g.timestamp := by
  induction tel with
  | nil => intro t ht; exact absurd ht (List.not_mem_nil t)
  | cons u us ih =>
    intro t ht hv hts
    rw [asofMatch] at h
    by_cases hc : u.vehicle_id = g.vehicle_id ∧ u.timestamp ≤ g.timestamp
    · rw [if_pos hc] at h
      cases hrest : asofMatch g us <;> rw [hrest] at h <;> dsimp only at h
      · exact Option.noConfusion h
      · split_ifs at h
    · rw [if_neg hc] at h
      rcases List.mem_cons.mp ht with rfl | htail
      · exact hc ⟨hv, hts⟩
      · exact ih h t htail hv hts

lemma asofMatch_eq_some (g : PositionEvent) (tel : List TelemetryEvent)
    (t : TelemetryEvent) (h : asofMatch g tel = some t) :
    t ∈ tel ∧ t.vehicle_id = g.vehicle_id ∧ t.timestamp ≤ g.timestamp ∧
      ∀ u ∈ tel, u.vehicle_id = g.vehicle_id → u.timestamp ≤ g.timestamp →
        u.timestamp ≤ t.timestamp := by
  induction tel generalizing t with
  | nil => exact Option.noConfusion h
  | cons u us ih =>
    rw [asofMatch] at h
    by_cases hc : u.vehicle_id = g.vehicle_id ∧ u.timestamp ≤ g.timestamp
    · rw [if_pos hc] at h
      cases hrest : asofMatch g us <;> rw [hrest] at h <;> dsimp only at h
      · obtain rfl : u = t := Option.some.inj h
        refine ⟨List.mem_cons_self u us, hc.1, hc.2, ?_⟩
        intro w hw hwv hwt
        rcases List.mem_cons.mp hw with rfl | hwtail
        · exact le_refl _
        · exact absurd hwt (asofMatch_eq_none g us hrest w hwtail hwv)
      · rename_i b
        obtain ⟨hbmem, hbv, hbt, hbmax⟩ := ih b hrest
        split_ifs at h with hlt
        · obtain rfl : u = t := Option.some.inj h
          refine ⟨List.mem_cons_self u us, hc.1, hc.2, ?_⟩
          intro w hw hwv hwt
          rcases List.mem_cons.mp hw with rfl | hwtail
          · exact le_refl _
          · exact le_trans (hbmax w hwtail hwv hwt) (le_of_lt hlt)
        · obtain rfl : b = t := Option.some.inj h
          refine ⟨List.mem_cons_of_mem u hbmem, hbv, hbt, ?_⟩
          intro w hw hwv hwt
          rcases List.mem_cons.mp hw with rfl | hwtail
          · exact not_lt.mp hlt
          · exact hbmax w hwtail hwv hwt
    · rw [if_neg hc] at h
      obtain ⟨hmem, hv, ht, hmax⟩ := ih t h
      refine ⟨List.mem_cons_of_mem u hmem, hv, ht, ?_⟩
      intro w hw hwv hwt
      rcases List.mem_cons.mp hw with rfl | hwtail
      · exact absurd ⟨hwv, hwt⟩ hc
      · exact hmax w hwtail hwv hwt

/-- The causality contract of the temporal join for one position event `g` and
the fused state `o` produced for it: either no telemetry of `g`'s vehicle
exists at or before `g`'s timestamp and `o` carries the neutral defaults, or
`o`'s telemetry fields are those of a most recent telemetry event of the same
vehicle with timestamp ≤ `g.timestamp`. -/
def causalFusion (tel : List TelemetryEvent) (g : PositionEvent) (o : VehicleState) : Prop :=
  ((∀ t ∈ tel, t.vehicle_id = g.vehicle_id → ¬ t.timestamp ≤ g.timestamp) ∧
    o.fuel_level_pct = 100 ∧ o.engine_temp_c = 85 ∧ o.load_kg = 0 ∧ o.idle_seconds = 0) ∨
  (∃ t ∈ tel, t.vehicle_id = g.vehicle_id ∧ t.timestamp ≤ g.timestamp ∧
    (∀ u ∈ tel, u.vehicle_id = g.vehicle_id → u.timestamp ≤ g.timestamp →
      u.timestamp ≤ t.timestamp) ∧
    o.fuel_level_pct = t.fuel_level_pct ∧ o.engine_temp_c = t.engine_temp_c ∧
    o.load_kg = t.load_kg ∧ o.idle_seconds = t.idle_seconds)

/-- Placeholder position event for out-of-range `getD` access. -/
def dummyPosition : PositionEvent :=
  { vehicle_id := "", timestamp := 0, latitude := 0, longitude := 0,
    speed_kmh := 0, heading := 0 }

/-- Placeholder fused state for out-of-range `getD` access. -/
def dummyState : VehicleState :=
  { vehicle_id := "", timestamp := 0, latitude := 0, longitude := 0,
    speed_kmh := 0, heading := 0, fuel_level_pct := 0, engine_temp_c := 0,
    load_kg := 0, idle_seconds := 0 }

/-- C4: for every pair of input streams and every position event (the `k`-th),
the fused state produced for it takes its telemetry fields only from a most
recent telemetry event of the same vehicle with timestamp ≤ the position's
timestamp, and uses the neutral defaults `fuel=100`, `temp=85`, `load=0`,
`idle=0` when no such event exists. -/
theorem join_gps_and_telemetry_causal (gps : List PositionEvent)
    (tel : List TelemetryEvent) (k : ℕ) (hk : k < gps.length) :
    causalFusion tel (gps.getD k dummyPosition)
      ((join_gps_and_telemetry gps tel).getD k dummyState) := by
  have hk2 : k < (join_gps_and_telemetry gps tel).length := by
    simpa [join_gps_and_telemetry] using hk
  rw [List.getD_eq_getElem _ _ hk2, List.getD_eq_getElem _ _ hk]
  simp only [join_gps_and_telemetry, List.getElem_map]
  set g := gps[k] with hg
  cases hmatch : asofMatch g tel with
  | none =>
    exact Or.inl ⟨asofMatch_eq_none g tel hmatch, rfl, rfl, rfl, rfl⟩
  | some t =>
    obtain ⟨hmem, hv, ht, hmax⟩ := asofMatch_eq_some g tel t hmatch
    exact Or.inr ⟨t, hmem, hv, ht, hmax, rfl, rfl, rfl, rfl⟩

/-- The spec's fusion scenario: telemetry for V at t=5 (idle 30); positions
for V at t=3 and t=8. -/
def gpsScenario : List PositionEvent :=
  [{ vehicle_id := "V", timestamp := 3, latitude := 0, longitude := 0,
     speed_kmh := 0, heading := 0 },
   { vehicle_id := "V", timestamp := 8, latitude := 0, longitude := 0,
     speed_kmh := 0, heading := 0 }]

/-- The telemetry stream of the fusion scenario. -/
def telScenario : List TelemetryEvent :=
  [{ vehicle_id := "V", timestamp := 5, fuel_level_pct := 90, engine_temp_c := 80,
     load_kg := 500, idle_seconds := 30 }]

/-- Witness for `join_gps_and_telemetry_causal` at the spec's scenario
(position at t=3, telemetry only at t=5). -/
theorem join_gps_and_telemetry_causal_witness :
    0 < gpsScenario.length ∧
    causalFusion telScenario (gpsScenario.getD 0 dummyPosition)
      ((join_gps_and_telemetry gpsScenario telScenario).getD 0 dummyState) :=
  ⟨by decide, join_gps_and_telemetry_causal gpsScenario telScenario 0 (by decide)⟩

lemma toPositionEvent_fuse (g : PositionEvent) (m : Option TelemetryEvent) :
    toPositionEvent (fuse g m) = g := by
  cases m <;> rfl

/-- C8: fusion emits exactly one `VehicleState` per input `PositionEvent`,
in order — projecting the outputs back to their position fields returns the
input list itself (hence equal counts, no duplicates, no drops), regardless
of the telemetry stream. -/
theorem join_gps_and_telemetry_complete (gps : List PositionEvent)
    (tel : List TelemetryEvent) :
    (join_gps_and_telemetry gps tel).map toPositionEvent = gps ∧
    (join_gps_and_telemetry gps tel).length = gps.length := by
  constructor
  · simp [join_gps_and_telemetry, Function.comp_def, toPositionEvent_fuse]
  · simp [join_gps_and_telemetry]

/-! ## Claims about the rolling window aggregator -/

/-- Emission record of vehicle A at t = 10, inside bucket `[0, 300)`. -/
def recA : EmissionRecord :=
  { vehicle_id := "A", timestamp := 10, latitude := 0, longitude := 0,
    speed_kmh := 50, idle_seconds := 0, co2_grams := 65, co2_rate_g_per_km := 650,
    alert_type := none, alert_severity := "INFO" }

/-- Emission record of vehicle B at t = 20, inside the same bucket `[0, 300)`. -/
def recB : EmissionRecord :=
  { vehicle_id := "B", timestamp := 20, latitude := 0, longitude := 0,
    speed_kmh := 50, idle_seconds := 0, co2_grams := 65, co2_rate_g_per_km := 650,
    alert_type := none, alert_severity := "INFO" }

/-- C2 is FALSE of the code (code bug): the `windowby` call passes no
`instance=` argument, so records of vehicles A and B falling in the same
5-minute bucket are reduced into a SINGLE summary (whose `vehicle_id` is an
arbitrary contributor, here A), not one summary per (vehicle, bucket); and
`window_start` / `window_end` are the min/max observed timestamps (10 and 20),
not the bucket's bounds (0 and 300). -/
theorem compute_rolling_efficiency_merges_vehicles :
    (compute_rolling_efficiency_behaved 300 30 [recA, recB]).length = 1 ∧
    ((compute_rolling_efficiency_behaved 300 30 [recA, recB]).map
      (fun w => w.vehicle_id)) = ["A"] ∧
    ((compute_rolling_efficiency_behaved 300 30 [recA, recB]).map
      (fun w => w.reading_count)) = [2] ∧
    ((compute_rolling_efficiency_behaved 300 30 [recA, recB]).map
      (fun w => w.window_start)) = [10] ∧
    ((compute_rolling_efficiency_behaved 300 30 [recA, recB]).map
      (fun w => w.window_end)) = [20] := by
  refine ⟨?_, ?_, ?_, ?_, ?_⟩ <;> decide

lemma acceptedAux_append (d c : ℤ) (w : Option ℤ) (xs ys : List EmissionRecord) :
    acceptedAux d c w (xs ++ ys) =
      acceptedAux d c w xs ++
        acceptedAux d c (xs.foldl (fun a r => pushTime a r.timestamp) w) ys := by
  induction xs generalizing w with
  | nil => rfl
  | cons r rs ih =>
    simp only [List.cons_append, acceptedAux, List.foldl_cons, List.append_eq]
    by_cases hb : bucketClosedB d c w r.timestamp = true
    · rw [if_pos hb, if_pos hb, ih]
    · rw [if_neg hb, if_neg hb, ih, List.cons_append]

lemma acceptedAux_closed_bucket_nil (d c K w0 : ℤ)
    (hcl : (K + 1) * d + c ≤ w0) :
    ∀ (l : List EmissionRecord) (w1 : ℤ), w0 ≤ w1 →
      groupFor d K (acceptedAux d c (some w1) l) = [] := by
  intro l
  induction l with
  | nil => intro w1 _; rfl
  | cons r rest ih =>
    intro w1 hw
    rw [acceptedAux]
    have hpush : pushTime (some w1) r.timestamp = some (max w1 r.timestamp) := rfl
    by_cases hb : bucketClosedB d c (some w1) r.timestamp = true
    · rw [if_pos hb, hpush]
      exact ih (max w1 r.timestamp) (le_trans hw (le_max_left _ _))
    · rw [if_neg hb, hpush]
      have hk : ¬ bucketKey d r.timestamp = K := by
        intro hkk
        apply hb
        unfold bucketClosedB
        rw [hkk]
        exact decide_eq_true (le_trans hcl hw)
      unfold groupFor
      rw [List.filter_cons_of_neg (by simpa using hk)]
      exact ih (max w1 r.timestamp) (le_trans hw (le_max_left _ _))

lemma compute_rolling_efficiency_reading_count (d : ℤ) (l : List EmissionRecord)
    (k : ℤ) (hk : k ∈ bucketKeys d l) :
    ∃ w ∈ compute_rolling_efficiency d l,
      w.reading_count = (groupFor d k l).length := by
  have hex : ∃ r ∈ l, bucketKey d r.timestamp = k := by
    simpa [bucketKeys, List.mem_dedup, List.mem_map] using hk
  obtain ⟨r, hr, hrk⟩ := hex
  have hmem : r ∈ groupFor d k l := by
    simp [groupFor, List.mem_filter, hr, hrk]
  cases hg : groupFor d k l with
  | nil => rw [hg] at hmem; exact absurd hmem (List.not_mem_nil r)
  | cons r0 rs =>
    refine ⟨summarize r0 rs, ?_, ?_⟩
    · unfold compute_rolling_efficiency
      exact List.mem_filterMap.mpr ⟨k, hk, by rw [hg]⟩
    · rfl

/-- The window-closure contract for one record `r` arriving between the
stream prefix `pre` and suffix `post`, under bucket duration `d` and lateness
cutoff `c`:
1. arriving while its bucket is still open, `r` is folded in (it stays in the
   accepted stream, in arrival position);
2. arriving after its bucket has closed, `r` is discarded with no effect on
   any summary (the behaved aggregation of the whole stream equals that of the
   stream without `r`) — a documented drop, not an error (the aggregator is a
   total function);
3. once a bucket is closed at the prefix's watermark, no later arrival changes
   that bucket's accepted contents — its summary is final from closure on
   (so emitting it only at closure is sound);
4. every bucket key present in the accepted stream yields a summary whose
   `reading_count` is exactly the number of accepted records of that bucket —
   so a dropped record is observably excluded from the count. -/
def closurePolicy (d c : ℤ) (pre post : List EmissionRecord) (r : EmissionRecord) : Prop :=
  (bucketClosedB d c (watermarkOf pre) r.timestamp = false →
    accepted d c (pre ++ r :: post) =
      accepted d c pre ++ r :: acceptedAux d c (pushTime (watermarkOf pre) r.timestamp) post) ∧
  (bucketClosedB d c (watermarkOf pre) r.timestamp = true →
    accepted d c (pre ++ r :: post) = accepted d c (pre ++ post)) ∧
  (∀ t : ℤ, bucketClosedB d c (watermarkOf pre) t = true →
    groupFor d (bucketKey d t) (accepted d c (pre ++ post)) =
      groupFor d (bucketKey d t) (accepted d c pre)) ∧
  (∀ k, k ∈ bucketKeys d (accepted d c (pre ++ r :: post)) →
    ∃ w ∈ compute_rolling_efficiency_behaved d c (pre ++ r :: post),
      w.reading_count = (groupFor d k (accepted d c (pre ++ r :: post))).length)

/-- C9: the rolling window aggregator's late-data policy.  Modelled from the
spec: the `common_behavior(cutoff, keep_results=True)` engine is Pathway
library code not in this repository; per the spec its clock is the event-time
watermark, a bucket `[T, T+d)` closes when the watermark passes `T+d+c`, and
its summary is emitted at closure.  Under that model: a record arriving
before its bucket's closure is folded into the bucket (1), one arriving after
closure is discarded without error and leaves every summary — in particular
the `reading_count` field — unchanged (2, 4), and a closed bucket's contents
never change afterwards, so no summary content exists before closure that
closure could contradict (3). -/
theorem window_closure_policy (d c : ℤ) (hd : 0 < d) (hc : 0 ≤ c)
    (pre post : List EmissionRecord) (r : EmissionRecord) :
    closurePolicy d c pre post r := by
  have hsplit := acceptedAux_append d c none pre
  refine ⟨?_, ?_, ?_, ?_⟩
  · intro hopen
    rw [accepted, hsplit (r :: post), acceptedAux,
      if_neg (by rw [show pre.foldl (fun a x => pushTime a x.timestamp) none = watermarkOf pre from rfl, hopen]; exact Bool.false_ne_true)]
    rfl
  · intro hclosed
    obtain ⟨w0, hw0, hle⟩ : ∃ w0, watermarkOf pre = some w0 ∧
        (bucketKey d r.timestamp + 1) * d + c ≤ w0 := by
      cases hwm : watermarkOf pre with
      | none => rw [hwm] at hclosed; exact absurd hclosed (by simp [bucketClosedB])
      | some w0 =>
        rw [hwm] at hclosed
        exact ⟨w0, rfl, of_decide_eq_true hclosed⟩
    have hts : r.timestamp ≤ w0 := by
      have h1 : r.timestamp < (bucketKey d r.timestamp + 1) * d :=
        Int.lt_fdiv_add_one_mul_self r.timestamp hd
      have h2 : (bucketKey d r.timestamp + 1) * d ≤ (bucketKey d r.timestamp + 1) * d + c :=
        le_add_of_nonneg_right hc
      exact le_of_lt (lt_of_lt_of_le h1 (le_trans h2 hle))
    have hpush : pushTime (watermarkOf pre) r.timestamp = watermarkOf pre := by
      rw [hw0]
      show some (max w0 r.timestamp) = some w0
      rw [max_eq_left hts]
    rw [accepted, hsplit (r :: post), acceptedAux,
      if_pos (show bucketClosedB d c (pre.foldl (fun a x => pushTime a x.timestamp) none) r.timestamp = true from hclosed),
      show pushTime (pre.foldl (fun a x => pushTime a x.timestamp) none) r.timestamp = watermarkOf pre from hpush,
      accepted, hsplit post]
    rfl
  · intro t hclosed
    obtain ⟨w0, hw0, hle⟩ : ∃ w0, watermarkOf pre = some w0 ∧
        (bucketKey d t + 1) * d + c ≤ w0 := by
      cases hwm : watermarkOf pre with
      | none => rw [hwm] at hclosed; exact absurd hclosed (by simp [bucketClosedB])
      | some w0 =>
        rw [hwm] at hclosed
        exact ⟨w0, rfl, of_decide_eq_true hclosed⟩
    rw [accepted, hsplit post]
    unfold groupFor
    rw [List.filter_append]
    rw [show pre.foldl (fun a x => pushTime a x.timestamp) none = watermarkOf pre from rfl, hw0]
    rw [show (List.filter (fun x => bucketKey d x.timestamp == bucketKey d t) (acceptedAux d c (some w0) post)) = groupFor d (bucketKey d t) (acceptedAux d c (some w0) post) from rfl]
    rw [acceptedAux_closed_bucket_nil d c (bucketKey d t) w0 hle post w0 (le_refl w0)]
    rw [List.append_nil]
    rfl
  · intro k hk
    exact compute_rolling_efficiency_reading_count d (accepted d c (pre ++ r :: post)) k hk

/-- Witness for `window_closure_policy` at the concrete configuration of the
source (5-minute buckets, 30 s cutoff) and a concrete stream. -/
theorem window_closure_policy_witness :
    (0 : ℤ) < 300 ∧ (0 : ℤ) ≤ 30 ∧ closurePolicy 300 30 [recA] [] recB :=
  ⟨by decide, by decide, window_closure_policy 300 30 (by decide) (by decide) [recA] [] recB⟩

end PathGreen
